import Mathlib

/-!
Verification of the gama-launcher core against its natural-language
specification.  The definitions below are shallow embeddings of the Python
source files `settings_manager.py`, `setup_minecraft.py`, `launcher.py` and
`download_assets.py`:

* file contents are modelled as lists of lines, where a line is a `List Char`
  (a Python `str` is a sequence of characters; the written files always end
  each line with a newline, so a list of newline-free lines determines the
  file bytes exactly);
* the filesystem is modelled as a predicate on path strings plus, where the
  code reads a JSON file, an oracle for the parse result (`none` = the read
  or parse raised);
* network downloads are modelled by oracles recording how many network calls
  a step makes and what it returns.
-/

namespace Gama

/-! ## Character/line utilities shared by the settings-manager model -/

/-- A line of a text file, as a sequence of characters. -/
abbrev Line := List Char

/-- Character list of a string literal. -/
def mkL (s : String) : Line := s.toList

/-- Whitespace test used by Python `str.strip()` (modelled with
`Char.isWhitespace`). -/
def isWS (c : Char) : Bool := c.isWhitespace

/-- Python `line.strip()`: drop whitespace from both ends. -/
def stripL (l : Line) : Line :=
  ((l.dropWhile isWS).reverse.dropWhile isWS).reverse

/-- Test used to find the first colon of a line. -/
def notColon (c : Char) : Bool := !(c == ':')

/-- Python `line.split(':', 1)` guarded by `':' in line`
(`settings_manager.py` lines 230-232): `none` when the line has no colon,
otherwise the text before the first colon and everything after it. -/
def splitKV (l : Line) : Option (Line × Line) :=
  match l.dropWhile notColon with
  | [] => none
  | _ :: v => some (l.takeWhile notColon, v)

/-- One parsed `options.txt` line: strip, then split at the first colon. -/
def parseLine (l : Line) : Option (Line × Line) := splitKV (stripL l)

/-- Python dict assignment `d[k] = v`: replace the value of an existing key
in place, otherwise append the new binding. -/
def upsert : List (Line × Line) → Line → Line → List (Line × Line)
  | [], k, v => [(k, v)]
  | kv :: rest, k, v =>
    if kv.1 = k then (k, v) :: rest else kv :: upsert rest k v

/-- Python dict lookup `d[k]` as an option. -/
def lookupKV : List (Line × Line) → Line → Option Line
  | [], _ => none
  | kv :: rest, k => if kv.1 = k then some kv.2 else lookupKV rest k

/-- The parse loop of `_write_options_txt` (`settings_manager.py` lines
225-234), with the accumulated dictionary made explicit. -/
def parseFold (acc : List (Line × Line)) : List Line → List (Line × Line)
  | [] => acc
  | l :: rest =>
    parseFold
      (match parseLine l with
       | some kv => upsert acc kv.1 kv.2
       | none => acc) rest

/-- Parse an existing `options.txt` into a key/value dictionary. -/
def parseOptions (lines : List Line) : List (Line × Line) := parseFold [] lines

/-- The dictionary-update step used when folding tier pairs in. -/
def upsertF (acc : List (Line × Line)) (kv : Line × Line) :
    List (Line × Line) :=
  upsert acc kv.1 kv.2

/-- First character is not whitespace (an analysis predicate, used to show
that parsing a written line round-trips). -/
def noLeadWS : Line → Bool
  | [] => true
  | c :: _ => !(isWS c)

/-- Last character is not whitespace. -/
def noTrailWS (l : Line) : Bool := noLeadWS l.reverse

/-- Python `str(n)` for a non-negative int, via explicit fuel so the
definition reduces by evaluation; `natStrCore` peels decimal digits. -/
def digitChar (d : Nat) : Char := Char.ofNat (48 + d % 10)

def natStrCore : Nat → Nat → Line → Line
  | 0, _, acc => acc
  | fuel + 1, n, acc =>
    if n = 0 then acc else natStrCore fuel (n / 10) (digitChar (n % 10) :: acc)

def natStr (n : Nat) : Line := if n = 0 then mkL "0" else natStrCore (n + 1) n []

/-- Python `'true' if b else 'false'`. -/
def boolStr (b : Bool) : Line := if b then mkL "true" else mkL "false"

/-! ## Settings tiers (`settings_manager.py` lines 24-137)

The `fov` field and the Distant Horizons horizontal resolution are float
literals in the source that are only ever stringified when written; they are
modelled by the exact decimal text `str()` produces for those literals. -/

structure TierSettings where
  renderDistance : Nat
  simulationDistance : Nat
  graphicsMode : Nat
  enableVsync : Bool
  maxFps : Nat
  fancyGraphics : Bool
  particles : Nat
  fov : Line
  entityShadows : Bool
  bobView : Bool
  guiScale : Nat
  mipmapLevels : Nat
  biomeBlendRadius : Nat
  ao : Bool
  clouds : Bool
  distant_horizons : Bool
  dh_render_distance : Option Nat
  dh_quality : Option String
deriving DecidableEq

def veryLowSettings : TierSettings :=
  { renderDistance := 8, simulationDistance := 6, graphicsMode := 0,
    enableVsync := false, maxFps := 0, fancyGraphics := false, particles := 2,
    fov := mkL "70.0", entityShadows := false, bobView := false, guiScale := 0,
    mipmapLevels := 0, biomeBlendRadius := 0, ao := false, clouds := false,
    distant_horizons := false, dh_render_distance := none, dh_quality := none }

def lowSettings : TierSettings :=
  { renderDistance := 10, simulationDistance := 8, graphicsMode := 0,
    enableVsync := false, maxFps := 0, fancyGraphics := false, particles := 1,
    fov := mkL "70.0", entityShadows := false, bobView := true, guiScale := 0,
    mipmapLevels := 1, biomeBlendRadius := 1, ao := false, clouds := true,
    distant_horizons := false, dh_render_distance := none, dh_quality := none }

def mediumSettings : TierSettings :=
  { renderDistance := 10, simulationDistance := 8, graphicsMode := 1,
    enableVsync := false, maxFps := 0, fancyGraphics := true, particles := 0,
    fov := mkL "80.0", entityShadows := true, bobView := true, guiScale := 0,
    mipmapLevels := 2, biomeBlendRadius := 2, ao := true, clouds := true,
    distant_horizons := false, dh_render_distance := none, dh_quality := none }

def highSettings : TierSettings :=
  { renderDistance := 12, simulationDistance := 8, graphicsMode := 1,
    enableVsync := false, maxFps := 0, fancyGraphics := true, particles := 0,
    fov := mkL "85.0", entityShadows := true, bobView := true, guiScale := 0,
    mipmapLevels := 3, biomeBlendRadius := 3, ao := true, clouds := true,
    distant_horizons := false, dh_render_distance := none, dh_quality := none }

def veryHighSettings : TierSettings :=
  { renderDistance := 12, simulationDistance := 10, graphicsMode := 1,
    enableVsync := false, maxFps := 0, fancyGraphics := true, particles := 0,
    fov := mkL "90.0", entityShadows := true, bobView := true, guiScale := 0,
    mipmapLevels := 4, biomeBlendRadius := 5, ao := true, clouds := true,
    distant_horizons := true, dh_render_distance := some 256,
    dh_quality := some "HIGH" }

def ultraSettings : TierSettings :=
  { renderDistance := 14, simulationDistance := 10, graphicsMode := 2,
    enableVsync := false, maxFps := 0, fancyGraphics := true, particles := 0,
    fov := mkL "90.0", entityShadows := true, bobView := true, guiScale := 0,
    mipmapLevels := 4, biomeBlendRadius := 7, ao := true, clouds := true,
    distant_horizons := true, dh_render_distance := some 512,
    dh_quality := some "EXTREME" }

/-- The tier table `self.tier_settings` of `MinecraftSettingsManager`;
`none` models `tier not in self.tier_settings`. -/
def tierSettings (tier : String) : Option TierSettings :=
  if tier = "Very Low" then some veryLowSettings
  else if tier = "Low" then some lowSettings
  else if tier = "Medium" then some mediumSettings
  else if tier = "High" then some highSettings
  else if tier = "Very High" then some veryHighSettings
  else if tier = "Ultra" then some ultraSettings
  else none

/-! ## Writing options.txt (`_write_options_txt`, lines 221-256) -/

/-- The fifteen `options.txt` keys the tier governs, with their stringified
values, in the order the source assigns them (lines 237-251). -/
def governedPairs (s : TierSettings) : List (Line × Line) :=
  [ (mkL "renderDistance", natStr s.renderDistance),
    (mkL "simulationDistance", natStr s.simulationDistance),
    (mkL "graphicsMode", natStr s.graphicsMode),
    (mkL "enableVsync", boolStr s.enableVsync),
    (mkL "maxFps", natStr s.maxFps),
    (mkL "fancyGraphics", boolStr s.fancyGraphics),
    (mkL "particles", natStr s.particles),
    (mkL "fov", s.fov),
    (mkL "entityShadows", boolStr s.entityShadows),
    (mkL "bobView", boolStr s.bobView),
    (mkL "guiScale", natStr s.guiScale),
    (mkL "mipmapLevels", natStr s.mipmapLevels),
    (mkL "biomeBlendRadius", natStr s.biomeBlendRadius),
    (mkL "ao", boolStr s.ao),
    (mkL "renderClouds", boolStr s.clouds) ]

/-- The governed key names alone. -/
def governedKeys : List Line :=
  [ mkL "renderDistance", mkL "simulationDistance", mkL "graphicsMode",
    mkL "enableVsync", mkL "maxFps", mkL "fancyGraphics", mkL "particles",
    mkL "fov", mkL "entityShadows", mkL "bobView", mkL "guiScale",
    mkL "mipmapLevels", mkL "biomeBlendRadius", mkL "ao", mkL "renderClouds" ]

/-- Overwrite the governed keys in the parsed dictionary (lines 237-251). -/
def mergeOptions (s : TierSettings) (existing : List (Line × Line)) :
    List (Line × Line) :=
  (governedPairs s).foldl upsertF existing

/-- Codepoint-lexicographic comparison of character sequences, the order
Python `sorted` uses on strings. -/
def leLine : Line → Line → Bool
  | [], _ => true
  | _ :: _, [] => false
  | a :: as, b :: bs =>
    if a.toNat < b.toNat then true
    else if b.toNat < a.toNat then false
    else leLine as bs

/-- Python tuple comparison on `(key, value)` items. -/
def leKV (a b : Line × Line) : Bool :=
  if a.1 = b.1 then leLine a.2 b.2 else leLine a.1 b.1

/-- Python `sorted(existing_options.items())` (line 255). -/
def sortOptions (l : List (Line × Line)) : List (Line × Line) :=
  l.mergeSort leKV

/-- The emitted line `f"{key}:{value}"` (line 256). -/
def optLine (kv : Line × Line) : Line := kv.1 ++ ':' :: kv.2

/-- Well-formedness of a key/value pair: the key is colon-free and the
emitted line `key:value` has no whitespace at either end, so that stripping
and re-splitting it recovers the pair. -/
def cleanPair (kv : Line × Line) : Bool :=
  kv.1.all notColon && noLeadWS (optLine kv) && noTrailWS (optLine kv)

/-- `_write_options_txt`: parse the existing file if present, overwrite the
governed keys, and write every binding back sorted, one `key:value` line
each.  Returns the new file content (the write is modelled as succeeding). -/
def writeOptionsLines (s : TierSettings) (existing : Option (List Line)) :
    List Line :=
  let parsed := match existing with
    | some lines => parseOptions lines
    | none => []
  (sortOptions (mergeOptions s parsed)).map optLine

/-! ## Shader marker and Distant Horizons files -/

/-- Python truthiness of the `shaderpack` argument (`None` and `""` are
falsy). -/
def truthyStr : Option String → Bool
  | none => false
  | some s => !(s == "")

/-- `_enable_shaders` file content (lines 274-277). -/
def irisEnableLines (pack : String) : List Line :=
  [ mkL "enableShaders=true",
    mkL "shaderPack=" ++ mkL pack,
    mkL "maxShadowRenderDistance=32" ]

/-- `_disable_shaders` file content (lines 290-292). -/
def irisDisableLines : List Line :=
  [ mkL "enableShaders=false", mkL "shaderPack=" ]

/-- The marker content `apply_settings` writes for a given flag and pack
(lines 181-184 / 205-208): enable only when the flag is set and the pack
reference is truthy. -/
def irisFor (sh : Bool) (pack : Option String) : List Line :=
  if sh = true ∧ truthyStr pack = true then irisEnableLines (pack.getD "")
  else irisDisableLines

/-- One Distant Horizons quality preset (lines 311-333); the horizontal
resolution float is kept as its `str()` text. -/
structure DHQuality where
  horizontalResolution : Line
  verticalQuality : Line
  lodChunkRenderDistance : Nat
  drawMode : Line
  enableCaveMode : Bool

def dhQualityFor (q : String) (dist : Nat) : DHQuality :=
  if q = "HIGH" then
    { horizontalResolution := mkL "1.25", verticalQuality := mkL "HIGH",
      lodChunkRenderDistance := dist, drawMode := mkL "FADING",
      enableCaveMode := false }
  else if q = "EXTREME" then
    { horizontalResolution := mkL "1.5", verticalQuality := mkL "EXTREME",
      lodChunkRenderDistance := dist, drawMode := mkL "FADING",
      enableCaveMode := false }
  else
    { horizontalResolution := mkL "1.0", verticalQuality := mkL "MEDIUM",
      lodChunkRenderDistance := dist, drawMode := mkL "FADING",
      enableCaveMode := false }

/-- The generated `DistantHorizons.toml` content (lines 338-373). -/
def dhTomlLines (q : DHQuality) : List Line :=
  [ mkL "# Distant Horizons Config - Auto-configured by Gama Launcher",
    mkL "",
    mkL "[client]",
    mkL "",
    mkL "[client.advanced]",
    mkL "",
    mkL "[client.advanced.lodBuilding]",
    mkL "# How far LOD chunks are rendered",
    mkL "lodChunkRenderDistance = " ++ natStr q.lodChunkRenderDistance,
    mkL "",
    mkL "[client.advanced.graphics]",
    mkL "",
    mkL "[client.advanced.graphics.quality]",
    mkL "# Horizontal resolution multiplier (higher = sharper but slower)",
    mkL "horizontalResolution = " ++ q.horizontalResolution,
    mkL "",
    mkL "# Vertical quality preset",
    mkL "verticalQuality = " ++ '"' :: (q.verticalQuality ++ ['"']),
    mkL "",
    mkL "# Draw mode (how LODs blend with regular chunks)",
    mkL "drawMode = " ++ '"' :: (q.drawMode ++ ['"']),
    mkL "",
    mkL "[client.advanced.graphics.advancedGraphics]",
    mkL "# Cave culling mode",
    mkL "enableCaveMode = " ++ boolStr q.enableCaveMode,
    mkL "",
    mkL "# Disable fog to see distant LODs better",
    mkL "disableFog = true",
    mkL "",
    mkL "# Enable LOD transparency for better visuals",
    mkL "enableTransparency = true",
    mkL "",
    mkL "[client.advanced.worldGenerator]",
    mkL "# Distance for LOD generation",
    mkL "distanceGenerationMode = " ++ mkL "\"BALANCED\"" ]

/-! ## Settings-manager state and `apply_settings` -/

/-- The tracker record `launcher_settings.json` (lines 139-155). -/
structure Tracker where
  last_tier_used : Option String
  last_shaders_used : Bool
deriving DecidableEq

/-- The files `MinecraftSettingsManager` touches; `none` means the file is
absent (or, for the tracker, unreadable — both yield the defaults). -/
structure MCState where
  optionsTxt : Option (List Line)
  irisConfig : Option (List Line)
  dhConfig : Option (List Line)
  trackerFile : Option Tracker

/-- `_enable_shaders` / `_disable_shaders` dispatch on (flag, pack). -/
def applyIris (st : MCState) (sh : Bool) (pack : Option String) : MCState :=
  { st with irisConfig := some (irisFor sh pack) }

/-- `_configure_distant_horizons` (lines 299-381): early return when the
tier does not declare the feature, else regenerate the TOML from the tier's
quality and distance (dict `.get` defaults 256 / `"MEDIUM"`). -/
def applyDH (st : MCState) (s : TierSettings) : MCState :=
  if s.distant_horizons = false then st
  else
    { st with
      dhConfig :=
        some (dhTomlLines
          (dhQualityFor (s.dh_quality.getD "MEDIUM")
            (s.dh_render_distance.getD 256))) }

/-- `apply_settings` (lines 157-219).  Returns the new on-disk state and the
boolean result (`true` = settings were changed). -/
def apply_settings (st : MCState) (tier : String) (sh : Bool)
    (pack : Option String) (force : Bool) : MCState × Bool :=
  match tierSettings tier with
  | none => (st, false)
  | some s =>
    let tr := st.trackerFile.getD ⟨none, false⟩
    if force = false ∧ tr.last_tier_used = some tier ∧ tr.last_shaders_used = sh
    then
      let st1 := applyIris st sh pack
      let st2 := if s.distant_horizons then applyDH st1 s else st1
      (st2, false)
    else
      let st1 := { st with optionsTxt := some (writeOptionsLines s st.optionsTxt) }
      let st2 := applyIris st1 sh pack
      let st3 := if s.distant_horizons then applyDH st2 s else st2
      let st4 := { st3 with trackerFile := some ⟨some tier, sh⟩ }
      (st4, true)

/-! ## Launcher model (`launcher.py`, `setup_minecraft.py`) -/

def mcVersion : String := "1.20.1"

def fabricVersion : String := "0.17.2"

def loaderVersionName : String :=
  "fabric-loader-" ++ fabricVersion ++ "-" ++ mcVersion

/-- Paths relative to the game directory, as the source builds them. -/
def loaderJarPath : String :=
  "versions/" ++ loaderVersionName ++ "/" ++ loaderVersionName ++ ".jar"

def loaderJsonPath : String :=
  "versions/" ++ loaderVersionName ++ "/" ++ loaderVersionName ++ ".json"

def clientJarPath : String :=
  "versions/" ++ mcVersion ++ "/" ++ mcVersion ++ ".jar"

def vanillaJsonPath : String :=
  "versions/" ++ mcVersion ++ "/" ++ mcVersion ++ ".json"

/-- Local filesystem oracle: which paths exist, and the result of reading a
path as JSON and extracting `assetIndex.id` (`none` = the read or parse
raised). -/
structure FS where
  present : String → Bool
  parseAssetIndex : String → Option String

/-- `MinecraftSetup.check_installation` (`setup_minecraft.py` lines 29-34):
both the Fabric loader version jar and the vanilla client jar must exist. -/
def check_installation (fs : FS) : Bool :=
  fs.present loaderJarPath && fs.present clientJarPath

/-- Outcome oracle for `MinecraftSetup.download_minecraft`: how many network
calls it made and the asset-index id it returned (`none` = failure). -/
structure DLOutcome where
  calls : Nat
  assetIndexId : Option String

/-- Outcome oracle for `MinecraftSetup.download_fabric`. -/
structure FabricOutcome where
  calls : Nat
  ok : Bool

/-- `GamaLauncher.setup_minecraft` (`launcher.py` lines 912-972), observed
as (number of network calls, returned asset-index id with `none` =
`return False`).  On the already-installed branch the code performs only
local reads plus the local server-list write, hence zero network calls, and
recovers the asset-index id from the persisted vanilla version JSON with
`MCVERSION` as fallback. -/
def setup_minecraft (fs : FS) (dl : DLOutcome) (fab : FabricOutcome) :
    Nat × Option String :=
  if check_installation fs then
    (0, some (if fs.present vanillaJsonPath then
        match fs.parseAssetIndex vanillaJsonPath with
        | some a => a
        | none => mcVersion
      else mcVersion))
  else
    match dl.assetIndexId with
    | none => (dl.calls, none)
    | some aid =>
      if fab.ok then (dl.calls + fab.calls, some aid)
      else (dl.calls + fab.calls, none)

/-! ## Classpath construction (`launcher.py` lines 1139-1195) -/

/-- A vanilla-profile library entry: it has `downloads.artifact` (with a
relative path), or only a Maven `name`, or neither. -/
inductive VanLib
  | art (path : String)
  | coord (name : String)
  | plain
deriving DecidableEq

def librariesRoot : String := "libraries/"

/-- Python `str.split(sep)` for a one-character separator, keeping empty
parts, as a structural recursion over the characters. -/
def splitChAux (sep : Char) : List Char → List Char → List (List Char)
  | [], cur => [cur.reverse]
  | c :: rest, cur =>
    if c = sep then cur.reverse :: splitChAux sep rest []
    else splitChAux sep rest (c :: cur)

def splitParts (n : String) (sep : Char) : List String :=
  (splitChAux sep n.toList []).map String.mk

/-- Python `group_id.replace(".", "/")`: a single-character pattern, so a
character map. -/
def dotsToSlashes (g : String) : String :=
  String.mk (g.toList.map (fun c => if c = '.' then '/' else c))

/-- The Maven-style relative path `group/…/artifact/version/artifact-version.jar`. -/
def mavenRel (g a v : String) : String :=
  dotsToSlashes g ++ "/" ++ a ++ "/" ++ v ++ "/" ++ a ++ "-" ++ v ++ ".jar"

/-- Resolve a vanilla library to its local path (lines 1150-1165):
artifact path wins; otherwise a name with at least three `:`-parts. -/
def resolveVanilla : VanLib → Option String
  | .art p => some (librariesRoot ++ p)
  | .coord n =>
    match splitParts n ':' with
    | g :: a :: v :: _ => some (librariesRoot ++ mavenRel g a v)
    | _ => none
  | .plain => none

/-- Resolve a Fabric library name (lines 1168-1183): exactly three parts. -/
def resolveFabric (n : String) : Option String :=
  match splitParts n ':' with
  | [g, a, v] => some (librariesRoot ++ mavenRel g a v)
  | _ => none

def mcJarPath : String :=
  "versions/" ++ mcVersion ++ "/" ++ mcVersion ++ ".jar"

/-- One iteration of the vanilla-library loop: append the resolved path when
it exists on disk, else leave the classpath unchanged. -/
def vanStep (fs : FS) (acc : List String) (l : VanLib) : List String :=
  match resolveVanilla l with
  | some p => if fs.present p then acc ++ [p] else acc
  | none => acc

/-- One iteration of the Fabric-library loop; an absent or empty `name`
is skipped. -/
def fabStep (fs : FS) (acc : List String) (n : Option String) : List String :=
  match n with
  | none => acc
  | some s =>
    if s = "" then acc
    else
      match resolveFabric s with
      | some p => if fs.present p then acc ++ [p] else acc
      | none => acc

/-- The classpath builder: vanilla libraries in manifest order (skipped
wholesale when the vanilla version JSON is absent), then Fabric libraries in
manifest order, then the client jar last; raises when the client jar is
missing (lines 1185-1190). -/
def build_classpath (fs : FS) (vanillaLibs : Option (List VanLib))
    (fabricLibs : List (Option String)) : Except String (List String) :=
  let cp :=
    match vanillaLibs with
    | some libs => libs.foldl (vanStep fs) []
    | none => []
  let cp2 := fabricLibs.foldl (fabStep fs) cp
  if fs.present mcJarPath then .ok (cp2 ++ [mcJarPath])
  else .error "Minecraft JAR not found!"

/-! ## RAM computation (`launcher.py` lines 1078-1082 and 676-688) -/

/-- `ram = base_ram + 2 if (shaders_enabled and
tier_config.get("shader_policy") == "OPTIONAL") else base_ram`. -/
def computeRam (baseRam : Nat) (policy : Option String) (sh : Bool) : Nat :=
  if sh = true ∧ policy = some "OPTIONAL" then baseRam + 2 else baseRam

/-! ## Shaderpack preparation (`GamaLauncher.prepare_mods`, lines 1010-1035) -/

/-- `shutil.copy2` into a directory modelled as a set of file names:
overwrite in place or add. -/
def addFile (files : List String) (f : String) : List String :=
  if files.contains f then files else files ++ [f]

/-- Python `f.endswith(".zip")` (the `glob("*.zip")` membership test), as a
character-suffix check. -/
def endsWithZip (f : String) : Bool := List.isSuffixOf (mkL ".zip") f.toList

/-- The shaderpack section of `prepare_mods`: when shaders are enabled, the
pack reference is truthy and the tier policy is `OPTIONAL`, copy the single
referenced pack into the live `shaderpacks` directory (when the source file
exists); otherwise delete every `*.zip` in it.  Returns the directory's
file-name content. -/
def preparePackSection (sh : Bool) (packName : Option String)
    (policy : Option String) (srcPresent : Bool) (dirFiles : List String) :
    List String :=
  if sh = true ∧ truthyStr packName = true ∧ policy = some "OPTIONAL" then
    if srcPresent then addFile dirFiles (packName.getD "") else dirFiles
  else
    dirFiles.filter (fun f => !(endsWithZip f))

/-! ## Asset fetch loops (`setup_minecraft.py` lines 205-229 and
`download_assets.py` lines 73-109) -/

/-- Download environment for the per-object loops: which object files (keyed
by hash — the storage path is a function of the hash alone) are already on
disk, and which fetches succeed. -/
structure FetchEnv where
  onDisk : String → Bool
  fetchOK : String → Bool

/-- Counters of `MinecraftSetup.download_assets`: successful downloads,
skips, and the object files written during this run. -/
structure SetupCounters where
  count : Nat
  skipped : Nat
  written : List String
deriving DecidableEq

/-- One iteration of the `MinecraftSetup.download_assets` object loop
(lines 205-229): skip when the object file exists, count a successful
download, and silently `pass` on a fetch failure. -/
def setupStep (env : FetchEnv) (st : SetupCounters) (e : String × String) :
    SetupCounters :=
  let h := e.2
  if env.onDisk h || st.written.contains h then
    { st with skipped := st.skipped + 1 }
  else if env.fetchOK h then
    { st with count := st.count + 1, written := st.written ++ [h] }
  else st

def setupLoopFrom (env : FetchEnv) (st : SetupCounters)
    (entries : List (String × String)) : SetupCounters :=
  entries.foldl (setupStep env) st

/-- The full object loop of `MinecraftSetup.download_assets` over manifest
entries `(name, hash)`. -/
def setupAssetLoop (env : FetchEnv) (entries : List (String × String)) :
    SetupCounters :=
  setupLoopFrom env ⟨0, 0, []⟩ entries

/-- Counters of the standalone `download_assets.py` loop, which also counts
failures. -/
structure DistCounters where
  downloaded : Nat
  skipped : Nat
  failed : Nat
  written : List String
deriving DecidableEq

/-- One iteration of the `download_assets.py` object loop (lines 73-108):
like `setupStep` but a fetch failure increments `failed`. -/
def distStep (env : FetchEnv) (st : DistCounters) (e : String × String) :
    DistCounters :=
  let h := e.2
  if env.onDisk h || st.written.contains h then
    { st with skipped := st.skipped + 1 }
  else if env.fetchOK h then
    { st with downloaded := st.downloaded + 1, written := st.written ++ [h] }
  else { st with failed := st.failed + 1 }

def distLoopFrom (env : FetchEnv) (st : DistCounters)
    (entries : List (String × String)) : DistCounters :=
  entries.foldl (distStep env) st

/-- The full object loop of `download_assets.py`. -/
def distAssetLoop (env : FetchEnv) (entries : List (String × String)) :
    DistCounters :=
  distLoopFrom env ⟨0, 0, 0, []⟩ entries

/-! ## Concrete fixtures used to instantiate the theorems -/

/-- A filesystem holding exactly the listed paths, on which every JSON read
fails. -/
def fsOfList (ps : List String) : FS :=
  { present := fun p => ps.contains p, parseAssetIndex := fun _ => none }

/-- Both jars are on disk but the loader version-descriptor JSON is not. -/
def fsJarsOnly : FS := fsOfList [loaderJarPath, clientJarPath]

/-- Installed layout whose vanilla version JSON exists but cannot be
parsed. -/
def fsInstalledBadJson : FS :=
  fsOfList [loaderJarPath, clientJarPath, vanillaJsonPath]

/-- Classpath scenario: both vanilla libraries, the Fabric library and the
client jar all exist. -/
def fsClasspathAll : FS :=
  fsOfList ["libraries/a/A.jar", "libraries/b/B.jar",
            "libraries/g/c/1/c-1.jar", mcJarPath]

/-- An empty filesystem. -/
def fsEmpty : FS := fsOfList []

/-- Settings state whose tracker last recorded ("Low", shaders off). -/
def stLowNoShaders : MCState :=
  { optionsTxt := none, irisConfig := none, dhConfig := none,
    trackerFile := some ⟨some "Low", false⟩ }

/-- An empty settings state. -/
def stBlank : MCState :=
  { optionsTxt := none, irisConfig := none, dhConfig := none,
    trackerFile := none }

/-- A download environment where nothing is cached and every fetch fails. -/
def envAllFail : FetchEnv := ⟨fun _ => false, fun _ => false⟩

/-! ## C6: RAM computation -/

/-- C6: the computed RAM allocation equals the tier's base RAM plus 2
exactly when the shader flag is set and the shader policy is `OPTIONAL`,
and equals the base RAM otherwise; with base 8 and policy `OPTIONAL` the
flag yields 10 or 8, and policy `DISALLOWED` always yields the base RAM. -/
theorem ram_allocation_spec (b : Nat) (p : Option String) (s : Bool) :
    (computeRam b p s = b + 2 ↔ (s = true ∧ p = some "OPTIONAL")) ∧
    (computeRam b p s = b ↔ ¬(s = true ∧ p = some "OPTIONAL")) ∧
    computeRam 8 (some "OPTIONAL") true = 10 ∧
    computeRam 8 (some "OPTIONAL") false = 8 ∧
    (∀ s2 : Bool, computeRam b (some "DISALLOWED") s2 = b) := by
  refine ⟨?_, ?_, by decide, by decide, ?_⟩
  · constructor
    · intro he
      by_cases h : s = true ∧ p = some "OPTIONAL"
      · exact h
      · rw [computeRam, if_neg h] at he; omega
    · intro h; rw [computeRam, if_pos h]
  · constructor
    · intro he h
      rw [computeRam, if_pos h] at he; omega
    · intro h; rw [computeRam, if_neg h]
  · intro s2
    rw [computeRam, if_neg]
    rintro ⟨-, hp⟩
    simp at hp

/-! ## C10: unknown tier is a global no-op -/

/-- C10: for a tier name not in the tier table, `apply_settings` returns
`false` and leaves every file (options.txt, shader marker, Distant Horizons
config, tracker) untouched, for every flag, pack and `force` value. -/
theorem apply_settings_unknown_tier (st : MCState) (tier : String) (sh : Bool)
    (pack : Option String) (force : Bool) (h : tierSettings tier = none) :
    apply_settings st tier sh pack force = (st, false) := by
  unfold apply_settings
  rw [h]

/-- Witness for C10 at the concrete tier name "Extreme". -/
theorem apply_settings_unknown_tier_witness :
    tierSettings "Extreme" = none ∧
    apply_settings stBlank "Extreme" true (some "pack.zip") true
      = (stBlank, false) :=
  ⟨by decide,
   apply_settings_unknown_tier stBlank "Extreme" true (some "pack.zip") true
     (by decide)⟩

/-! ## C5: missing client jar is fatal to classpath construction -/

/-- C5: whatever the state of the library files, if the client jar path does
not exist the classpath builder aborts with an explicit error. -/
theorem classpath_missing_main_fatal (fs : FS)
    (vanillaLibs : Option (List VanLib)) (fabricLibs : List (Option String))
    (h : fs.present mcJarPath = false) :
    build_classpath fs vanillaLibs fabricLibs
      = .error "Minecraft JAR not found!" := by
  unfold build_classpath
  rw [h]
  simp

/-- Witness for C5 on an empty filesystem. -/
theorem classpath_missing_main_fatal_witness :
    build_classpath fsEmpty (some [.art "a/A.jar"]) [some "g:c:1"]
      = .error "Minecraft JAR not found!" :=
  classpath_missing_main_fatal fsEmpty (some [.art "a/A.jar"]) [some "g:c:1"]
    (by decide)

/-! ## C4: classpath ordering and silent dropping -/

/-- C4: with base libraries `[A, B]`, loader library `[C]` and main artifact
`M`, the classpath is `[A, B, C, M]` when all four paths exist, and
`[A, C, M]` when `B` is missing: base libraries first in manifest order,
then loader libraries, then the main artifact, silently dropping entries
whose resolved path does not exist. -/
theorem classpath_order_spec (fs : FS) (la lb : VanLib) (nc : String)
    (pa pb pc : String)
    (ha : resolveVanilla la = some pa) (hb : resolveVanilla lb = some pb)
    (hc : resolveFabric nc = some pc) (hnc : ¬(nc = ""))
    (hpa : fs.present pa = true) (hpc : fs.present pc = true)
    (hm : fs.present mcJarPath = true) :
    (fs.present pb = true →
      build_classpath fs (some [la, lb]) [some nc]
        = .ok [pa, pb, pc, mcJarPath]) ∧
    (fs.present pb = false →
      build_classpath fs (some [la, lb]) [some nc]
        = .ok [pa, pc, mcJarPath]) := by
  constructor <;> intro hpb <;>
    simp [build_classpath, vanStep, fabStep, ha, hb, hc, hnc, hpa, hpb, hpc, hm]

/-- Witness for C4 with all four files on disk. -/
theorem classpath_order_spec_witness :
    build_classpath fsClasspathAll
        (some [.art "a/A.jar", .art "b/B.jar"]) [some "g:c:1"]
      = .ok ["libraries/a/A.jar", "libraries/b/B.jar",
             "libraries/g/c/1/c-1.jar", mcJarPath] :=
  (classpath_order_spec fsClasspathAll (.art "a/A.jar") (.art "b/B.jar")
      "g:c:1" "libraries/a/A.jar" "libraries/b/B.jar" "libraries/g/c/1/c-1.jar"
      (by decide) (by decide) (by decide)
      (by decide) (by decide) (by decide)
      (by decide)).1 (by decide)

/-! ## C1: installation check and the no-network short circuit -/

/-- C1 counterexample: the installation check does not test the loader's
version-descriptor (JSON) file — it tests the loader's version JAR.  On a
filesystem holding the client jar and the loader jar but no loader
descriptor JSON, the check still returns true, refuting "returns true
exactly when both the client jar and the loader's version descriptor file
exist". -/
theorem install_check_descriptor_cex :
    ¬ (check_installation fsJarsOnly = true ↔
        (fsJarsOnly.present clientJarPath = true ∧
         fsJarsOnly.present loaderJsonPath = true)) := by
  decide

/-- C1 (amended): the installation check returns true exactly when the
client jar and the loader version JAR both exist; and whenever it returns
true, `setup_minecraft` performs zero network calls and recovers the
asset-index id from the persisted vanilla version JSON, falling back to the
runtime version string when that file is absent or unreadable. -/
theorem install_check_short_circuit (fs : FS) (dl : DLOutcome)
    (fab : FabricOutcome) :
    (check_installation fs = true ↔
      (fs.present loaderJarPath = true ∧ fs.present clientJarPath = true)) ∧
    (check_installation fs = true →
      setup_minecraft fs dl fab
        = (0, some (if fs.present vanillaJsonPath then
              match fs.parseAssetIndex vanillaJsonPath with
              | some a => a
              | none => mcVersion
            else mcVersion))) := by
  constructor
  · simp [check_installation, Bool.and_eq_true]
  · intro h
    unfold setup_minecraft
    rw [h]
    simp

/-- Witness for C1 (amended): an installed layout whose vanilla version JSON
exists but cannot be parsed, so the fallback runtime version string is
used, with zero network calls. -/
theorem install_check_short_circuit_witness :
    check_installation fsInstalledBadJson = true ∧
    setup_minecraft fsInstalledBadJson ⟨7, some "5"⟩ ⟨3, true⟩
      = (0, some mcVersion) :=
  ⟨by decide,
   ((install_check_short_circuit fsInstalledBadJson ⟨7, some "5"⟩ ⟨3, true⟩).2
     (by decide)).trans (by decide)⟩

/-! ## C9: per-object fetch failures -/

/-- C9 counterexample: in the launcher's own asset fetcher
(`MinecraftSetup.download_assets`) a failing object is swallowed but NOT
counted: a one-object batch whose fetch fails produces exactly the same
counters and filesystem effect as an empty batch, so the failure is not
reflected in any count. -/
theorem setup_fetch_fail_uncounted_cex :
    setupAssetLoop envAllFail [("minecraft/sounds/a.ogg", "aabb")]
      = setupAssetLoop envAllFail [] ∧
    setupAssetLoop envAllFail [("minecraft/sounds/a.ogg", "aabb")]
      = ⟨0, 0, []⟩ := by
  decide

/-- C9 (amended): a per-object fetch failure never aborts the batch — both
fetch loops process a manifest as a total left fold, so every entry after a
failing one is still processed — and never raises past the component; the
standalone `download_assets.py` loop counts the failure in `failed`, while
the launcher's `MinecraftSetup.download_assets` loop leaves its counters
unchanged on a failure (failures are not counted there). -/
theorem fetch_failure_policy (env : FetchEnv) (st : SetupCounters)
    (st2 : DistCounters) (xs ys : List (String × String))
    (e : String × String)
    (h1 : env.onDisk e.2 = false) (h2 : st.written.contains e.2 = false)
    (h3 : env.fetchOK e.2 = false) (h4 : st2.written.contains e.2 = false) :
    (setupLoopFrom env st (xs ++ ys)
      = setupLoopFrom env (setupLoopFrom env st xs) ys) ∧
    (distLoopFrom env st2 (xs ++ ys)
      = distLoopFrom env (distLoopFrom env st2 xs) ys) ∧
    setupStep env st e = st ∧
    distStep env st2 e = { st2 with failed := st2.failed + 1 } := by
  have h2m : e.2 ∉ st.written := by simpa using h2
  have h4m : e.2 ∉ st2.written := by simpa using h4
  refine ⟨List.foldl_append _ _ _ _, List.foldl_append _ _ _ _, ?_, ?_⟩
  · simp [setupStep, h1, h2m, h3]
  · simp [distStep, h1, h3, h4m]

/-- Witness for C9 (amended) on a concrete failing entry. -/
theorem fetch_failure_policy_witness :
    setupStep envAllFail ⟨2, 1, []⟩ ("minecraft/sounds/a.ogg", "aabb")
      = ⟨2, 1, []⟩ ∧
    distStep envAllFail ⟨2, 1, 0, []⟩ ("minecraft/sounds/a.ogg", "aabb")
      = ⟨2, 1, 1, []⟩ :=
  ⟨(fetch_failure_policy envAllFail ⟨2, 1, []⟩ ⟨2, 1, 0, []⟩ [] []
      ("minecraft/sounds/a.ogg", "aabb")
      (by decide) (by decide) (by decide) (by decide)).2.2.1,
   (fetch_failure_policy envAllFail ⟨2, 1, []⟩ ⟨2, 1, 0, []⟩ [] []
      ("minecraft/sounds/a.ogg", "aabb")
      (by decide) (by decide) (by decide) (by decide)).2.2.2⟩

/-! ## C7: live shader directory content -/

/-- C7 counterexample: when shaders are enabled with policy `OPTIONAL` and a
pack reference set, `prepare_mods` copies the referenced pack WITHOUT
clearing the live shader directory first, so a stale pack from a previous
run survives: the claim that the directory then "contains that single
referenced package and no stale package" is false. -/
theorem shader_dir_stale_cex :
    preparePackSection true (some "new.zip") (some "OPTIONAL") true
        ["old.zip"]
      = ["old.zip", "new.zip"] ∧
    "old.zip" ∈ preparePackSection true (some "new.zip") (some "OPTIONAL")
        true ["old.zip"] ∧
    ("old.zip" : String) ≠ "new.zip" := by
  refine ⟨by decide, by decide, by decide⟩

/-- C7 (amended): when shaders are enabled, the tier policy is `OPTIONAL`
and the pack reference is truthy, the referenced pack is copied into the
live shader directory (when its source exists) and every pre-existing file
is retained — the branch is additive; in every other case all `*.zip`
package files are cleared from the directory and nothing else changes. -/
theorem shader_dir_replace_policy (sh : Bool) (pack : Option String)
    (policy : Option String) (src : Bool) (dir : List String) :
    ((sh = true ∧ truthyStr pack = true ∧ policy = some "OPTIONAL") →
      (src = true →
        (pack.getD "") ∈ preparePackSection sh pack policy src dir ∧
        ∀ f ∈ dir, f ∈ preparePackSection sh pack policy src dir) ∧
      (src = false → preparePackSection sh pack policy src dir = dir)) ∧
    (¬(sh = true ∧ truthyStr pack = true ∧ policy = some "OPTIONAL") →
      ∀ f, f ∈ preparePackSection sh pack policy src dir ↔
        (f ∈ dir ∧ endsWithZip f = false)) := by
  constructor
  · intro hc
    constructor
    · intro hs
      unfold preparePackSection
      rw [if_pos hc, if_pos hs]
      unfold addFile
      constructor
      · split
        · next hmem => simpa using hmem
        · simp
      · intro f hf
        split <;> simp [hf]
    · intro hs
      unfold preparePackSection
      rw [if_pos hc, hs]
      simp
  · intro hc f
    unfold preparePackSection
    rw [if_neg hc]
    simp [List.mem_filter]

/-- Witness for C7 (amended), exercising the additive enabled branch. -/
theorem shader_dir_replace_policy_witness :
    "new.zip" ∈ preparePackSection true (some "new.zip") (some "OPTIONAL")
        true ["other.txt"] ∧
    "other.txt" ∈ preparePackSection true (some "new.zip") (some "OPTIONAL")
        true ["other.txt"] :=
  ⟨((shader_dir_replace_policy true (some "new.zip") (some "OPTIONAL") true
      ["other.txt"]).1 (by decide) |>.1 (by decide)).1,
   ((shader_dir_replace_policy true (some "new.zip") (some "OPTIONAL") true
      ["other.txt"]).1 (by decide) |>.1 (by decide)).2 "other.txt"
     (by decide)⟩

/-! ## Helper lemmas about `apply_settings` -/

theorem applyIris_optionsTxt (st : MCState) (sh : Bool) (pack : Option String) :
    (applyIris st sh pack).optionsTxt = st.optionsTxt := rfl

theorem applyIris_trackerFile (st : MCState) (sh : Bool) (pack : Option String) :
    (applyIris st sh pack).trackerFile = st.trackerFile := rfl

theorem applyDH_optionsTxt (st : MCState) (s : TierSettings) :
    (applyDH st s).optionsTxt = st.optionsTxt := by
  unfold applyDH; split <;> rfl

theorem applyDH_trackerFile (st : MCState) (s : TierSettings) :
    (applyDH st s).trackerFile = st.trackerFile := by
  unfold applyDH; split <;> rfl

theorem applyDH_irisConfig (st : MCState) (s : TierSettings) :
    (applyDH st s).irisConfig = st.irisConfig := by
  unfold applyDH; split <;> rfl

/-- The no-change branch of `apply_settings`: same tier and flag as the
tracker and no force. -/
theorem apply_settings_nochange (st : MCState) (t : String) (sh : Bool)
    (pack : Option String) (s : TierSettings) (hts : tierSettings t = some s)
    (h1 : (st.trackerFile.getD ⟨none, false⟩).last_tier_used = some t)
    (h2 : (st.trackerFile.getD ⟨none, false⟩).last_shaders_used = sh) :
    apply_settings st t sh pack false
      = ((if s.distant_horizons then applyDH (applyIris st sh pack) s
          else applyIris st sh pack), false) := by
  unfold apply_settings
  rw [hts]
  exact if_pos ⟨rfl, h1, h2⟩

/-- The change branch of `apply_settings`: the tracker comparison (or a
forced apply) triggers the full rewrite. -/
theorem apply_settings_change (st : MCState) (t : String) (sh : Bool)
    (pack : Option String) (force : Bool) (s : TierSettings)
    (hts : tierSettings t = some s)
    (hcond : ¬(force = false
      ∧ (st.trackerFile.getD ⟨none, false⟩).last_tier_used = some t
      ∧ (st.trackerFile.getD ⟨none, false⟩).last_shaders_used = sh)) :
    apply_settings st t sh pack force
      = ({ (if s.distant_horizons then
              applyDH (applyIris
                { st with optionsTxt := some (writeOptionsLines s st.optionsTxt) }
                sh pack) s
            else applyIris
              { st with optionsTxt := some (writeOptionsLines s st.optionsTxt) }
              sh pack) with
           trackerFile := some ⟨some t, sh⟩ }, true) := by
  unfold apply_settings
  rw [hts]
  exact if_neg hcond

/-! ## C2: the settings no-op law -/

/-- C2: for every starting state (hence every tracker state) and every
(tier, flag) pair, calling `apply_settings` twice in a row with the same
arguments and `force = false` leaves `options.txt` byte-identical after the
second call, and the second call returns `false` ("unchanged"). -/
theorem apply_settings_noop (st : MCState) (t : String) (sh : Bool)
    (pack : Option String) :
    ((apply_settings (apply_settings st t sh pack false).1 t sh pack
        false).1).optionsTxt
      = ((apply_settings st t sh pack false).1).optionsTxt ∧
    (apply_settings (apply_settings st t sh pack false).1 t sh pack
        false).2 = false := by
  cases hts : tierSettings t with
  | none => simp [apply_settings, hts]
  | some s =>
    by_cases hc :
        ((st.trackerFile.getD ⟨none, false⟩).last_tier_used = some t
          ∧ (st.trackerFile.getD ⟨none, false⟩).last_shaders_used = sh)
    · -- first call takes the no-change branch and leaves the tracker as is
      rw [apply_settings_nochange st t sh pack s hts hc.1 hc.2]
      have htr : ((if s.distant_horizons then
            applyDH (applyIris st sh pack) s
          else applyIris st sh pack)).trackerFile = st.trackerFile := by
        split
        · rw [applyDH_trackerFile, applyIris_trackerFile]
        · rw [applyIris_trackerFile]
      rw [apply_settings_nochange _ t sh pack s hts (by rw [htr]; exact hc.1)
        (by rw [htr]; exact hc.2)]
      constructor
      · split
        · rw [applyDH_optionsTxt, applyIris_optionsTxt]
        · rw [applyIris_optionsTxt]
      · rfl
    · -- first call takes the change branch and records (t, sh)
      rw [apply_settings_change st t sh pack false s hts
        (fun h => hc ⟨h.2.1, h.2.2⟩)]
      rw [apply_settings_nochange _ t sh pack s hts (by rfl) (by rfl)]
      constructor
      · split
        · rw [applyDH_optionsTxt, applyIris_optionsTxt]
        · rw [applyIris_optionsTxt]
      · rfl

/-! ## C3: shader-flag change detection -/

/-- C3: for a valid tier, if the requested shader flag differs from the
tracker's recorded flag while the tier matches the recorded tier (and
`force` is false), `apply_settings` returns `true`, rewrites the shader
marker file from the new (flag, pack) pair, and persists the new
(tier, flag) pair to the tracker — whatever the current `options.txt`
content is. -/
theorem apply_settings_shader_change (st : MCState) (t : String) (sh : Bool)
    (pack : Option String) (s : TierSettings) (hts : tierSettings t = some s)
    (hlt : (st.trackerFile.getD ⟨none, false⟩).last_tier_used = some t)
    (hls : ¬((st.trackerFile.getD ⟨none, false⟩).last_shaders_used = sh)) :
    (apply_settings st t sh pack false).2 = true ∧
    ((apply_settings st t sh pack false).1).irisConfig
      = some (irisFor sh pack) ∧
    ((apply_settings st t sh pack false).1).trackerFile
      = some ⟨some t, sh⟩ := by
  rw [apply_settings_change st t sh pack false s hts
    (fun h => hls h.2.2)]
  refine ⟨rfl, ?_, rfl⟩
  show (if s.distant_horizons then _ else _ : MCState).irisConfig = _
  split
  · rw [applyDH_irisConfig]; rfl
  · rfl

/-- Witness for C3: tracker previously recorded ("Low", shaders off); the
same tier is requested with shaders on. -/
theorem apply_settings_shader_change_witness :
    (apply_settings stLowNoShaders "Low" true (some "pack.zip") false).2
      = true ∧
    ((apply_settings stLowNoShaders "Low" true (some "pack.zip")
        false).1).irisConfig = some (irisFor true (some "pack.zip")) ∧
    ((apply_settings stLowNoShaders "Low" true (some "pack.zip")
        false).1).trackerFile = some ⟨some "Low", true⟩ :=
  apply_settings_shader_change stLowNoShaders "Low" true (some "pack.zip")
    lowSettings (by decide) (by decide) (by decide)

/-! ## Dictionary lemmas for the options.txt merge (towards C8) -/

theorem lookup_upsert_self (l : List (Line × Line)) (k v : Line) :
    lookupKV (upsert l k v) k = some v := by
  induction l with
  | nil => simp [upsert, lookupKV]
  | cons kv rest ih =>
    by_cases h : kv.1 = k <;> simp [upsert, lookupKV, h, ih]

theorem lookup_upsert_ne (l : List (Line × Line)) (k v k2 : Line)
    (h : ¬(k2 = k)) :
    lookupKV (upsert l k v) k2 = lookupKV l k2 := by
  have h' : ¬(k = k2) := fun hh => h hh.symm
  induction l with
  | nil =>
    simp only [upsert, lookupKV]
    rw [if_neg h']
  | cons kv rest ih =>
    by_cases h1 : kv.1 = k
    · simp only [upsert, if_pos h1, lookupKV]
      rw [if_neg h', if_neg (fun hh => h' (h1.symm.trans hh))]
    · simp only [upsert, if_neg h1, lookupKV]
      by_cases h2 : kv.1 = k2
      · rw [if_pos h2, if_pos h2]
      · rw [if_neg h2, if_neg h2]
        exact ih

theorem lookup_foldl_not_mem (pairs : List (Line × Line))
    (acc : List (Line × Line)) (k : Line) (h : ∀ kv ∈ pairs, kv.1 ≠ k) :
    lookupKV (pairs.foldl upsertF acc) k = lookupKV acc k := by
  induction pairs generalizing acc with
  | nil => rfl
  | cons p ps ih =>
    rw [List.foldl_cons,
      ih _ (fun kv hm => h kv (List.mem_cons_of_mem _ hm))]
    exact lookup_upsert_ne acc p.1 p.2 k
      (fun hh => h p (List.mem_cons_self _ _) hh.symm)

theorem lookup_foldl_mem (pairs : List (Line × Line))
    (acc : List (Line × Line)) (kv : Line × Line)
    (hnd : (pairs.map Prod.fst).Nodup) (hm : kv ∈ pairs) :
    lookupKV (pairs.foldl upsertF acc) kv.1 = some kv.2 := by
  induction pairs generalizing acc with
  | nil => cases hm
  | cons p ps ih =>
    rw [List.map_cons, List.nodup_cons] at hnd
    rw [List.foldl_cons]
    rcases List.mem_cons.mp hm with h | h
    · subst h
      rw [lookup_foldl_not_mem ps _ kv.1
        (fun q hq hqe => hnd.1 (by rw [← hqe]; exact List.mem_map_of_mem Prod.fst hq))]
      exact lookup_upsert_self acc kv.1 kv.2
    · exact ih _ hnd.2 h

theorem governedPairs_map_fst (s : TierSettings) :
    (governedPairs s).map Prod.fst = governedKeys := rfl

theorem governedKeys_nodup : governedKeys.Nodup := by decide

theorem lookup_merge_not_gov (s : TierSettings) (p : List (Line × Line))
    (k : Line) (h : k ∉ governedKeys) :
    lookupKV (mergeOptions s p) k = lookupKV p k := by
  show lookupKV ((governedPairs s).foldl upsertF p) k = lookupKV p k
  apply lookup_foldl_not_mem
  intro kv hm hk
  apply h
  rw [← hk, ← governedPairs_map_fst s]
  exact List.mem_map_of_mem Prod.fst hm

theorem lookup_merge_gov (s : TierSettings) (p : List (Line × Line))
    (kv : Line × Line) (hm : kv ∈ governedPairs s) :
    lookupKV (mergeOptions s p) kv.1 = some kv.2 := by
  show lookupKV ((governedPairs s).foldl upsertF p) kv.1 = some kv.2
  exact lookup_foldl_mem _ p kv
    (by rw [governedPairs_map_fst s]; exact governedKeys_nodup) hm

theorem mem_map_fst_upsert (l : List (Line × Line)) (k v x : Line)
    (h : x ∈ (upsert l k v).map Prod.fst) :
    x ∈ l.map Prod.fst ∨ x = k := by
  induction l with
  | nil => simpa [upsert] using h
  | cons kv rest ih =>
    by_cases h1 : kv.1 = k
    · rw [upsert, if_pos h1] at h
      simp only [List.map_cons, List.mem_cons] at h ⊢
      rcases h with h | h
      · exact Or.inr h
      · exact Or.inl (Or.inr h)
    · rw [upsert, if_neg h1] at h
      simp only [List.map_cons, List.mem_cons] at h ⊢
      rcases h with h | h
      · exact Or.inl (Or.inl h)
      · rcases ih h with h2 | h2
        · exact Or.inl (Or.inr h2)
        · exact Or.inr h2

theorem nodup_upsert (l : List (Line × Line)) (k v : Line)
    (h : (l.map Prod.fst).Nodup) : ((upsert l k v).map Prod.fst).Nodup := by
  induction l with
  | nil => simp [upsert]
  | cons kv rest ih =>
    rw [List.map_cons, List.nodup_cons] at h
    by_cases h1 : kv.1 = k
    · rw [upsert, if_pos h1, List.map_cons, List.nodup_cons]
      exact ⟨h1 ▸ h.1, h.2⟩
    · rw [upsert, if_neg h1, List.map_cons, List.nodup_cons]
      refine ⟨fun hm => ?_, ih h.2⟩
      rcases mem_map_fst_upsert rest k v kv.1 hm with h2 | h2
      · exact h.1 h2
      · exact h1 h2

theorem nodup_foldl_upsert (pairs : List (Line × Line))
    (acc : List (Line × Line)) (h : (acc.map Prod.fst).Nodup) :
    ((pairs.foldl upsertF acc).map Prod.fst).Nodup := by
  induction pairs generalizing acc with
  | nil => exact h
  | cons p ps ih => exact ih _ (nodup_upsert acc p.1 p.2 h)

theorem mem_upsert (l : List (Line × Line)) (k v : Line) (kv2 : Line × Line)
    (h : kv2 ∈ upsert l k v) : kv2 ∈ l ∨ kv2 = (k, v) := by
  induction l with
  | nil => simpa [upsert] using h
  | cons kv rest ih =>
    by_cases h1 : kv.1 = k
    · rw [upsert, if_pos h1] at h
      rcases List.mem_cons.mp h with h2 | h2
      · exact Or.inr h2
      · exact Or.inl (List.mem_cons_of_mem _ h2)
    · rw [upsert, if_neg h1] at h
      rcases List.mem_cons.mp h with h2 | h2
      · exact Or.inl (h2 ▸ List.mem_cons_self _ _)
      · rcases ih h2 with h3 | h3
        · exact Or.inl (List.mem_cons_of_mem _ h3)
        · exact Or.inr h3

theorem clean_foldl_upsert (pairs : List (Line × Line))
    (acc : List (Line × Line))
    (hacc : ∀ kv ∈ acc, cleanPair kv = true)
    (hp : ∀ kv ∈ pairs, cleanPair kv = true) :
    ∀ kv ∈ pairs.foldl upsertF acc, cleanPair kv = true := by
  induction pairs generalizing acc with
  | nil => exact hacc
  | cons p ps ih =>
    rw [List.foldl_cons]
    apply ih
    · intro kv hm
      rcases mem_upsert acc p.1 p.2 kv hm with h | h
      · exact hacc kv h
      · subst h; exact hp p (List.mem_cons_self _ _)
    · exact fun kv hm => hp kv (List.mem_cons_of_mem _ hm)

/-! ## Round-trip of written options lines (towards C8) -/

theorem dropWhile_head_false (p : Char → Bool) (l : Line) (c : Char)
    (rest : Line) (h : l.dropWhile p = c :: rest) : p c = false := by
  induction l with
  | nil => cases h
  | cons a m ih =>
    rw [List.dropWhile_cons] at h
    split at h
    · exact ih h
    · next hpa =>
      cases h
      simpa using hpa

theorem noLeadWS_dropWhile (l : Line) : noLeadWS (l.dropWhile isWS) = true := by
  cases hd : l.dropWhile isWS with
  | nil => rfl
  | cons c rest =>
    have hc := dropWhile_head_false isWS l c rest hd
    simp [noLeadWS, hc]

theorem noLeadWS_append_left (xs ys : Line) (h : xs ≠ []) :
    noLeadWS (xs ++ ys) = noLeadWS xs := by
  cases xs with
  | nil => exact absurd rfl h
  | cons c m => rfl

theorem noTrailWS_dropWhile (p : Char → Bool) (l : Line)
    (h : noTrailWS l = true) : noTrailWS (l.dropWhile p) = true := by
  induction l with
  | nil => exact h
  | cons a m ih =>
    rw [List.dropWhile_cons]
    split
    · apply ih
      cases m with
      | nil => rfl
      | cons b mm =>
        unfold noTrailWS at h ⊢
        rw [List.reverse_cons, noLeadWS_append_left _ _ (by simp)] at h
        exact h
    · exact h

theorem strip_noLead (l : Line) : noLeadWS (stripL l) = true := by
  have h1 : noLeadWS (l.dropWhile isWS) = true := noLeadWS_dropWhile l
  have h2 : noTrailWS ((l.dropWhile isWS).reverse) = true := by
    unfold noTrailWS
    rw [List.reverse_reverse]
    exact h1
  have h3 := noTrailWS_dropWhile isWS ((l.dropWhile isWS).reverse) h2
  unfold noTrailWS at h3
  exact h3

theorem strip_noTrail (l : Line) : noTrailWS (stripL l) = true := by
  unfold stripL noTrailWS
  rw [List.reverse_reverse]
  exact noLeadWS_dropWhile _

theorem allTakeWhile (p : Char → Bool) (l : Line) :
    (l.takeWhile p).all p = true := by
  induction l with
  | nil => rfl
  | cons a m ih =>
    rw [List.takeWhile_cons]
    split <;> simp_all

theorem splitKV_eq (l k v : Line) (h : splitKV l = some (k, v)) :
    l = k ++ ':' :: v ∧ k.all notColon = true := by
  unfold splitKV at h
  cases hd : l.dropWhile notColon with
  | nil => rw [hd] at h; cases h
  | cons c rest =>
    rw [hd] at h
    have hc : notColon c = false := dropWhile_head_false notColon l c rest hd
    have hcol : c = ':' := by
      unfold notColon at hc
      simpa using hc
    injection h with h2
    have hk : l.takeWhile notColon = k := congrArg Prod.fst h2
    have hv : rest = v := congrArg Prod.snd h2
    constructor
    · rw [← List.takeWhile_append_dropWhile (p := notColon) (l := l), hd,
        hcol, hk, hv]
    · rw [← hk]
      exact allTakeWhile notColon l

theorem takeWhile_append_stop (p : Char → Bool) (xs : Line) (y : Char)
    (ys : Line) (hx : xs.all p = true) (hy : p y = false) :
    (xs ++ y :: ys).takeWhile p = xs := by
  induction xs with
  | nil => simp [List.takeWhile_cons, hy]
  | cons x m ih =>
    rw [List.all_cons, Bool.and_eq_true] at hx
    simp [List.takeWhile_cons, hx.1, ih hx.2]

theorem dropWhile_append_stop (p : Char → Bool) (xs : Line) (y : Char)
    (ys : Line) (hx : xs.all p = true) (hy : p y = false) :
    (xs ++ y :: ys).dropWhile p = y :: ys := by
  induction xs with
  | nil => simp [List.dropWhile_cons, hy]
  | cons x m ih =>
    rw [List.all_cons, Bool.and_eq_true] at hx
    simp [List.dropWhile_cons, hx.1, ih hx.2]

theorem splitKV_mk (k v : Line) (h : k.all notColon = true) :
    splitKV (k ++ ':' :: v) = some (k, v) := by
  have hd := dropWhile_append_stop notColon k ':' v h (by decide)
  have ht := takeWhile_append_stop notColon k ':' v h (by decide)
  simp [splitKV, hd, ht]

theorem dropWhile_isWS_eq_self (l : Line) (h : noLeadWS l = true) :
    l.dropWhile isWS = l := by
  cases l with
  | nil => rfl
  | cons c m =>
    have hc : isWS c = false := by simpa [noLeadWS] using h
    simp [List.dropWhile_cons, hc]

theorem parseLine_optLine (kv : Line × Line) (h : cleanPair kv = true) :
    parseLine (optLine kv) = some kv := by
  have h3 := h
  unfold cleanPair at h3
  rw [Bool.and_eq_true, Bool.and_eq_true] at h3
  obtain ⟨⟨h1, h2⟩, h4⟩ := h3
  have hs : stripL (optLine kv) = optLine kv := by
    unfold stripL
    rw [dropWhile_isWS_eq_self _ h2]
    rw [dropWhile_isWS_eq_self _ (by unfold noTrailWS at h4; exact h4)]
    exact List.reverse_reverse _
  unfold parseLine
  rw [hs]
  exact splitKV_mk kv.1 kv.2 h1

theorem parseLine_clean (l : Line) (kv : Line × Line)
    (h : parseLine l = some kv) : cleanPair kv = true := by
  obtain ⟨heq, hall⟩ := splitKV_eq (stripL l) kv.1 kv.2 h
  unfold cleanPair optLine
  rw [← heq, hall, strip_noLead, strip_noTrail]
  rfl

theorem upsert_append (l : List (Line × Line)) (k v : Line)
    (h : ∀ kv ∈ l, kv.1 ≠ k) : upsert l k v = l ++ [(k, v)] := by
  induction l with
  | nil => rfl
  | cons kv rest ih =>
    rw [upsert, if_neg (h kv (List.mem_cons_self _ _)),
      ih (fun q hq => h q (List.mem_cons_of_mem _ hq))]
    rfl

theorem parseFold_nodup_clean (lines : List Line) (acc : List (Line × Line))
    (h1 : (acc.map Prod.fst).Nodup) (h2 : ∀ kv ∈ acc, cleanPair kv = true) :
    ((parseFold acc lines).map Prod.fst).Nodup ∧
      (∀ kv ∈ parseFold acc lines, cleanPair kv = true) := by
  induction lines generalizing acc with
  | nil => exact ⟨h1, h2⟩
  | cons l rest ih =>
    unfold parseFold
    cases hp : parseLine l with
    | none => exact ih acc h1 h2
    | some kv =>
      apply ih
      · exact nodup_upsert acc kv.1 kv.2 h1
      · intro kv2 hm
        rcases mem_upsert acc kv.1 kv.2 kv2 hm with h | h
        · exact h2 kv2 h
        · subst h
          exact parseLine_clean l kv hp

theorem parseFold_optLines (pairs : List (Line × Line))
    (acc : List (Line × Line))
    (hclean : ∀ kv ∈ pairs, cleanPair kv = true)
    (hnd : (pairs.map Prod.fst).Nodup)
    (hdisj : ∀ kv ∈ pairs, ∀ kv2 ∈ acc, kv2.1 ≠ kv.1) :
    parseFold acc (pairs.map optLine) = acc ++ pairs := by
  induction pairs generalizing acc with
  | nil => simp [parseFold]
  | cons p ps ih =>
    rw [List.map_cons, List.nodup_cons] at hnd
    rw [List.map_cons]
    unfold parseFold
    rw [parseLine_optLine p (hclean p (List.mem_cons_self _ _))]
    show parseFold (upsert acc p.1 p.2) (ps.map optLine) = acc ++ p :: ps
    rw [upsert_append acc p.1 p.2
      (fun kv2 hm => hdisj p (List.mem_cons_self _ _) kv2 hm)]
    rw [ih (acc ++ [(p.1, p.2)])
      (fun kv hm => hclean kv (List.mem_cons_of_mem _ hm)) hnd.2 ?_]
    · simp
    · intro kv hkv kv2 hkv2
      rcases List.mem_append.mp hkv2 with h | h
      · exact hdisj kv (List.mem_cons_of_mem _ hkv) kv2 h
      · have h5 : kv2 = (p.1, p.2) := by simpa using h
        rw [h5]
        intro hh
        apply hnd.1
        have hh2 : p.1 = kv.1 := hh
        rw [hh2]
        exact List.mem_map_of_mem Prod.fst hkv

theorem mem_of_lookup (l : List (Line × Line)) (k v : Line)
    (h : lookupKV l k = some v) : (k, v) ∈ l := by
  induction l with
  | nil => cases h
  | cons kv rest ih =>
    rw [lookupKV] at h
    split at h
    · next he =>
      injection h with h2
      subst h2
      exact he ▸ List.mem_cons_self _ _
    · exact List.mem_cons_of_mem _ (ih h)

theorem lookup_of_mem_nodup (l : List (Line × Line)) (kv : Line × Line)
    (hnd : (l.map Prod.fst).Nodup) (hm : kv ∈ l) :
    lookupKV l kv.1 = some kv.2 := by
  induction l with
  | nil => cases hm
  | cons p rest ih =>
    rw [List.map_cons, List.nodup_cons] at hnd
    rcases List.mem_cons.mp hm with h | h
    · subst h
      rw [lookupKV, if_pos rfl]
    · rw [lookupKV, if_neg
        (fun hh => hnd.1 (by rw [hh]; exact List.mem_map_of_mem Prod.fst h))]
      exact ih hnd.2 h

theorem tier_governed_clean (t : String) (s : TierSettings)
    (hts : tierSettings t = some s) :
    ∀ kv ∈ governedPairs s, cleanPair kv = true := by
  unfold tierSettings at hts
  split_ifs at hts
  all_goals first
    | (injection hts with h; subst h; decide)
    | cases hts

/-! ## C8: merge semantics of the options.txt write -/

/-- C8: when the change path rewrites `options.txt`, it merges rather than
replaces — for any tier of the table, every key of the existing file that
the tier does not govern still maps to its prior value in the written file,
and every governed key maps to the tier's value. -/
theorem options_merge_preserves (t : String) (s : TierSettings)
    (lines : List Line) (k v : Line) (hts : tierSettings t = some s) :
    (k ∉ governedKeys → lookupKV (parseOptions lines) k = some v →
      lookupKV (parseOptions (writeOptionsLines s (some lines))) k
        = some v) ∧
    (∀ kv ∈ governedPairs s,
      lookupKV (parseOptions (writeOptionsLines s (some lines))) kv.1
        = some kv.2) := by
  have hparse := parseFold_nodup_clean lines [] (by simp) (by simp)
  have hmnd : ((mergeOptions s (parseOptions lines)).map Prod.fst).Nodup :=
    nodup_foldl_upsert _ _ hparse.1
  have hmclean : ∀ kv ∈ mergeOptions s (parseOptions lines),
      cleanPair kv = true :=
    clean_foldl_upsert _ _ hparse.2 (tier_governed_clean t s hts)
  have hperm : List.Perm (sortOptions (mergeOptions s (parseOptions lines)))
      (mergeOptions s (parseOptions lines)) :=
    List.mergeSort_perm _ _
  have hsnd : ((sortOptions (mergeOptions s (parseOptions lines))).map
      Prod.fst).Nodup :=
    ((hperm.map Prod.fst).nodup_iff).mpr hmnd
  have hsclean : ∀ kv ∈ sortOptions (mergeOptions s (parseOptions lines)),
      cleanPair kv = true :=
    fun kv hm => hmclean kv (hperm.mem_iff.mp hm)
  have hwrite : parseOptions (writeOptionsLines s (some lines))
      = sortOptions (mergeOptions s (parseOptions lines)) := by
    show parseFold [] ((sortOptions
      (mergeOptions s (parseOptions lines))).map optLine) = _
    rw [parseFold_optLines _ [] hsclean hsnd (by simp)]
    rfl
  constructor
  · intro hk hv
    rw [hwrite]
    have h1 : lookupKV (mergeOptions s (parseOptions lines)) k = some v := by
      rw [lookup_merge_not_gov s _ k hk]
      exact hv
    exact lookup_of_mem_nodup _ (k, v) hsnd
      (hperm.mem_iff.mpr (mem_of_lookup _ k v h1))
  · intro kv hm
    rw [hwrite]
    have h1 : lookupKV (mergeOptions s (parseOptions lines)) kv.1
        = some kv.2 := lookup_merge_gov s _ kv hm
    exact lookup_of_mem_nodup _ (kv.1, kv.2) hsnd
      (hperm.mem_iff.mpr (mem_of_lookup _ kv.1 kv.2 h1))

/-- Witness for C8: a custom key of the existing file survives the rewrite
with its prior value. -/
theorem options_merge_preserves_witness :
    lookupKV (parseOptions (writeOptionsLines lowSettings
        (some [mkL "customKey:42"]))) (mkL "customKey") = some (mkL "42") :=
  (options_merge_preserves "Low" lowSettings [mkL "customKey:42"]
    (mkL "customKey") (mkL "42") (by decide)).1 (by decide) (by decide)

end Gama
